import Mathlib

/-
Shallow embedding of the training-pipeline orchestrator and the
reward-evaluation accumulator of facebookresearch/Horizon:

  * reagent/workflow/training.py
      get_sample_range, query_and_train, run_validator, run_publisher
  * reagent/evaluation/reward_net_evaluator.py
      RewardNetEvaluator.evaluate, RewardNetEvaluator.evaluate_post_training

Python floats are modelled as rationals (ℚ); the only float-specific
behaviour the code relies on is that a NaN comparison is false, which is
modelled explicitly (`np_mean` returns `none` for the NaN produced by
`numpy.mean` on an empty list).  Opaque payloads (setup-data blobs,
normalization maps, datasets, models' artifacts) are modelled as `Nat`
tokens: the orchestrator never inspects them.
-/

set_option autoImplicit false

namespace Reagent

/-! ## Sample ranges (reagent/workflow/training.py, lines 77-115) -/

/-- TableSpec: the fields of `input_table_spec` read by `get_sample_range`
(`table_sample` and `eval_table_sample`, optional percentages). -/
structure TableSpec where
  table_sample : Option ℚ
  eval_table_sample : Option ℚ
  deriving DecidableEq

/-- TrainEvalSampleRanges: the NamedTuple returned by `get_sample_range`. -/
structure TrainEvalSampleRanges where
  train_sample_range : ℚ × ℚ
  eval_sample_range : ℚ × ℚ
  deriving DecidableEq

/-- ConfigurationError: the `AssertionError` raised by `get_sample_range`;
its `error_msg` f-string interpolates the current `table_sample` and
`eval_table_sample`, so the error value carries both. -/
structure ConfigurationError where
  table_sample : Option ℚ
  eval_table_sample : Option ℚ
  deriving DecidableEq

/-- Embeds `get_sample_range(input_table_spec, calc_cpe_in_training)`.
The three `assert` statements become the error cases, in source order:
`table_sample is not None`, `eval_table_sample is not None`,
`eval_table_sample + table_sample <= 100.0 + 1e-3`. -/
def get_sample_range (input_table_spec : TableSpec) (calc_cpe_in_training : Bool) :
    Except ConfigurationError TrainEvalSampleRanges :=
  let table_sample := input_table_spec.table_sample
  let eval_table_sample := input_table_spec.eval_table_sample
  if !calc_cpe_in_training then
    let train_sample_range : ℚ × ℚ :=
      match table_sample with
      | none => (0, 100)
      | some ts => (0, ts)
    -- eval samples will not be used
    .ok ⟨train_sample_range, (0, 0)⟩
  else
    match table_sample, eval_table_sample with
    | some ts, some ets =>
      if ets + ts ≤ 100 + 1 / 1000 then
        .ok ⟨(0, ts), (100 - ets, 100)⟩
      else
        .error ⟨table_sample, eval_table_sample⟩
    | _, _ => .error ⟨table_sample, eval_table_sample⟩

/-- Two percentage windows `(low, high)` overlap when their open
intersection is non-empty. -/
def ranges_overlap (r₁ r₂ : ℚ × ℚ) : Prop :=
  max r₁.1 r₂.1 < min r₁.2 r₂.2

instance (r₁ r₂ : ℚ × ℚ) : Decidable (ranges_overlap r₁ r₂) := by
  unfold ranges_overlap; infer_instance

/-! ## Reward-network evaluator (reagent/evaluation/reward_net_evaluator.py) -/

/-- Modelled from the spec: evaluation batches.  The batch classes
(`reagent.types`) are outside the given sources; per the spec an
evaluation batch is either ranking-style, carrying an optional slate-level
reward field (`slate_reward`), or another batch kind carrying an optional
scalar/episode reward field (`reward`).  Reward tensors are flattened
lists of rationals. -/
inductive EvalBatch
  | ranking (slate_reward : Option (List ℚ))
  | generic (reward : Option (List ℚ))
  deriving DecidableEq

/-- The reward extraction of `evaluate` (lines 35-38): ranking-style
batches (`isinstance(eval_tdp, rlt.PreprocessedRankingInput)`) contribute
`eval_tdp.slate_reward`, any other batch contributes `eval_tdp.reward`. -/
def extract_reward : EvalBatch → Option (List ℚ)
  | .ranking slate_reward => slate_reward
  | .generic reward => reward

/-- Modelled from the spec: the reward network owned by the trainer.  The
network itself is external; the evaluator reads and writes its
training-mode flag (`reward_net.training`, `reward_net.eval()`,
`reward_net.train(mode)`) and runs it forward
(`reward_net(eval_tdp).predicted_reward`).  `net_id` stands for the
identity of the network weights, so that a `copy.deepcopy` snapshot can
be compared with the live network. -/
structure RewardNet where
  training : Bool
  predicted_reward : EvalBatch → List ℚ
  net_id : Nat

/-- Errors raised inside the evaluator:
`missingSignal` for the failed `assert reward is not None` (line 39),
`catEmptyList` for `torch.cat` applied to an empty list of tensors
(lines 55-56), which raises a `RuntimeError` in torch. -/
inductive EvalError
  | missingSignal
  | catEmptyList
  deriving DecidableEq

/-- State of `RewardNetEvaluator` after `__init__` plus the shared state
it touches: `trainer.reward_net` (shared mode flag), `trainer.loss_fn`
(injected loss), the three accumulator lists, `best_model` and
`best_model_loss` (initialized to the sentinel `1e9`). -/
structure RewardNetEvaluator where
  reward_net : RewardNet
  loss_fn : List ℚ → List ℚ → ℚ
  loss : List ℚ
  rewards : List (List ℚ)
  pred_rewards : List (List ℚ)
  best_model : Option RewardNet
  best_model_loss : ℚ

/-- The `__init__` state of `RewardNetEvaluator` (lines 19-25): empty
accumulators, no best model, sentinel loss `1e9`. -/
def RewardNetEvaluator.init (reward_net : RewardNet)
    (loss_fn : List ℚ → List ℚ → ℚ) : RewardNetEvaluator :=
  { reward_net := reward_net
    loss_fn := loss_fn
    loss := []
    rewards := []
    pred_rewards := []
    best_model := none
    best_model_loss := 1000000000 }

/-- Embeds `RewardNetEvaluator.evaluate` (lines 30-47).  Returns the
evaluator state after the call together with `some e` when the call
raises `e`.  Control flow from the source: save `reward_net.training`,
force eval mode, extract the reward (ranking branch vs generic branch),
`assert reward is not None` — on failure the function aborts with the
mode still forced to eval, since there is no try/finally — then run the
network, compute and append loss/reward/pred-reward, and restore the
saved mode. -/
def RewardNetEvaluator.evaluate (self : RewardNetEvaluator) (eval_tdp : EvalBatch) :
    RewardNetEvaluator × Option EvalError :=
  let reward_net_prev_mode := self.reward_net.training
  let self := { self with reward_net := { self.reward_net with training := false } }
  match extract_reward eval_tdp with
  | none => (self, some .missingSignal)
  | some reward =>
    let pred_reward := self.reward_net.predicted_reward eval_tdp
    let loss := self.loss_fn pred_reward reward
    let self :=
      { self with
        loss := self.loss ++ [loss]
        rewards := self.rewards ++ [reward]
        pred_rewards := self.pred_rewards ++ [pred_reward] }
    ({ self with reward_net := { self.reward_net with training := reward_net_prev_mode } },
      none)

/-- Embeds `np.mean` on the accumulated loss list: `numpy.mean` of an
empty list silently evaluates to NaN (with a runtime warning, not an
exception); NaN is modelled as `none`. -/
def np_mean (l : List ℚ) : Option ℚ :=
  if l = [] then none else some (l.sum / l.length)

/-- Embeds `torch.cat` on a list of flattened tensors: raises a
`RuntimeError` on an empty list, otherwise concatenates. -/
def torch_cat (l : List (List ℚ)) : Except EvalError (List ℚ) :=
  if l = [] then .error .catEmptyList else .ok l.flatten

/-- The `eval_res` dict built by `evaluate_post_training`:
`{"loss": mean_loss, "rewards": ..., "pred_rewards": ...}`; the loss is
`none` when `np.mean` produced NaN. -/
structure EvalRes where
  loss : Option ℚ
  rewards : List ℚ
  pred_rewards : List ℚ
  deriving DecidableEq

/-- Embeds `RewardNetEvaluator.evaluate_post_training` (lines 50-66):
compute `mean_loss = np.mean(self.loss)` (NaN when empty), build
`eval_res` with `torch.cat(self.rewards)` and
`torch.cat(self.pred_rewards)` (each raising on an empty list), clear
the three accumulators, and when `mean_loss < self.best_model_loss`
(false when `mean_loss` is NaN, as for floats) update `best_model_loss`
and snapshot `best_model = copy.deepcopy(self.trainer.reward_net)`. -/
def RewardNetEvaluator.evaluate_post_training (self : RewardNetEvaluator) :
    Except EvalError (EvalRes × RewardNetEvaluator) := do
  let mean_loss := np_mean self.loss
  let cat_rewards ← torch_cat self.rewards
  let cat_pred_rewards ← torch_cat self.pred_rewards
  let eval_res : EvalRes :=
    { loss := mean_loss, rewards := cat_rewards, pred_rewards := cat_pred_rewards }
  let self := { self with loss := [], rewards := [], pred_rewards := [] }
  let self :=
    match mean_loss with
    | some m =>
      if m < self.best_model_loss then
        { self with best_model_loss := m, best_model := some self.reward_net }
      else self
    | none => self
  return (eval_res, self)

/-! ## Orchestrator (reagent/workflow/training.py, lines 118-254)

Opaque pass-through configuration (num_epochs, use_gpu, reward/reader/
resource options, warmstart_path) is forwarded unmodified by the source
to collaborator calls and never branched on; it is elided from the
embedding.  Setup data (`Dict[str, bytes]`) is a list of key/byte-list
pairs; normalization maps, data modules and datasets are opaque `Nat`
tokens; entity ids are `Nat`. -/

/-- Mapping from logical module name to persistent entity id
(`ModuleNameToEntityId`). -/
abbrev ModuleNameToEntityId := List (String × Nat)

/-- A saved-setup-data value as it arrives from the caller: either raw
bytes or an FBLearner `Blob` wrapping bytes in a `.data` field. -/
inductive BlobOrBytes
  | bytes (b : List Nat)
  | blob (data : List Nat)
  deriving DecidableEq

/-- Embeds `_maybe_get_bytes` (lines 149-154): raw bytes pass through,
a `Blob` is unwrapped via `.data`. -/
def maybe_get_bytes : BlobOrBytes → List Nat
  | .bytes b => b
  | .blob data => data

/-- Modelled from the spec: `RLTrainingOutput` (from
`reagent.workflow.types`, outside the given sources) is an immutable
record of base training results plus two optional stage fields,
`validation_result` and `publishing_result`, each initially unset. -/
structure RLTrainingOutput where
  output : Nat
  validation_result : Option Nat
  publishing_result : Option Nat
  deriving DecidableEq

/-- Errors raised by the orchestrator:
`mutualExclusivity` for the `ValueError` at training.py line 171,
`invariantViolation f` for the failed `assert` guarding stage field `f`
in `run_validator` / `run_publisher`,
`configuration e` for the `get_sample_range` assertion failure. -/
inductive OrchestrationError
  | mutualExclusivity
  | invariantViolation (field : String)
  | configuration (e : ConfigurationError)
  deriving DecidableEq

/-- Observable collaborator calls made by `query_and_train`, in order. -/
inductive Event
  | getDataModule
  | prepareData
  | queryData (sample_range : ℚ × ℚ)
  | trainWorkflow (setup_data : Option (List (String × List Nat)))
      (normalization_data_map : Option Nat)
      (train_dataset eval_dataset : Option Nat)
  deriving DecidableEq

/-- The model-manager collaborator interface consumed by the orchestrator
(`manager = model.value`): `get_data_module` (may return a data module,
modelled by its id, as a function of the table spec and unwrapped saved
setup data), `prepare_data` on that module, the
`should_generate_eval_dataset` flag, `query_data` and `train_workflow`. -/
structure ModelManager where
  get_data_module : TableSpec → Option (List (String × List Nat)) → Option Nat
  prepare_data : Nat → List (String × List Nat)
  should_generate_eval_dataset : Bool
  query_data : TableSpec → (ℚ × ℚ) → Nat
  train_workflow : Option Nat → Option Nat → Option (List (String × List Nat)) →
      Option Nat → ModuleNameToEntityId → Nat → RLTrainingOutput

/-- Embeds `run_validator` (lines 223-231): assert `validation_result`
is unset, invoke `validator.value.validate`, and return a functional
update (`dataclasses.replace`) with `validation_result` populated. -/
def run_validator (validate : RLTrainingOutput → Nat)
    (training_output : RLTrainingOutput) :
    Except OrchestrationError RLTrainingOutput :=
  if training_output.validation_result ≠ none then
    .error (.invariantViolation "validation_result")
  else
    let validation_result := validate training_output
    .ok { training_output with validation_result := some validation_result }

/-- Embeds `run_publisher` (lines 234-254): assert `publishing_result`
is unset, invoke `publisher.value.publish` with the model manager, the
output, the recurring workflow ids, the child workflow id and the
recurring period, and return a functional update with
`publishing_result` populated. -/
def run_publisher
    (publish : ModelManager → RLTrainingOutput → ModuleNameToEntityId → Nat →
      Option Nat → Nat)
    (model_chooser : ModelManager) (training_output : RLTrainingOutput)
    (recurring_workflow_ids : ModuleNameToEntityId) (child_workflow_id : Nat)
    (recurring_period : Option Nat) :
    Except OrchestrationError RLTrainingOutput :=
  if training_output.publishing_result ≠ none then
    .error (.invariantViolation "publishing_result")
  else
    let publishing_result :=
      publish model_chooser training_output recurring_workflow_ids
        child_workflow_id recurring_period
    .ok { training_output with publishing_result := some publishing_result }

/-- Result of the data-resolution block of `query_and_train`
(lines 158-168): the resolved `setup_data` and `normalization_data_map`
plus the collaborator calls it made. -/
structure ResolvedData where
  setup_data : Option (List (String × List Nat))
  normalization_data_map : Option Nat
  events : List Event
  deriving DecidableEq

/-- Embeds the data-resolution block of `query_and_train`
(lines 158-168): when `setup_data` is `None`, ask the manager for a data
module; when one exists, `setup_data = data_module.prepare_data()` and
the existing normalization data map is thrown away; otherwise both
inputs pass through.  When `setup_data` was supplied, the block is
skipped entirely. -/
def resolve_setup_data (manager : ModelManager) (input_table_spec : TableSpec)
    (setup_data : Option (List (String × List Nat)))
    (saved_setup_data : Option (List (String × List Nat)))
    (normalization_data_map : Option Nat) : ResolvedData :=
  match setup_data with
  | some sd => ⟨some sd, normalization_data_map, []⟩
  | none =>
    match manager.get_data_module input_table_spec saved_setup_data with
    | some data_module =>
      -- Throw away existing normalization data map
      ⟨some (manager.prepare_data data_module), none, [.getDataModule, .prepareData]⟩
    | none => ⟨none, normalization_data_map, [.getDataModule]⟩

/-- The train/validate/publish tail of `query_and_train`
(lines 192-220): invoke `train_workflow`, then `run_validator` when a
validator was supplied, then `run_publisher` when a publisher was
supplied. -/
def train_and_finish (manager : ModelManager)
    (setup_data : Option (List (String × List Nat)))
    (normalization_data_map : Option Nat)
    (train_dataset eval_dataset : Option Nat)
    (named_model_ids : ModuleNameToEntityId) (child_workflow_id : Nat)
    (validator : Option (RLTrainingOutput → Nat))
    (publisher : Option (ModelManager → RLTrainingOutput → ModuleNameToEntityId →
      Nat → Option Nat → Nat))
    (recurring_period : Option Nat) (events : List Event) :
    Except OrchestrationError RLTrainingOutput × List Event :=
  let results :=
    manager.train_workflow train_dataset eval_dataset setup_data
      normalization_data_map named_model_ids child_workflow_id
  let events := events ++
    [.trainWorkflow setup_data normalization_data_map train_dataset eval_dataset]
  let validated : Except OrchestrationError RLTrainingOutput :=
    match validator with
    | none => .ok results
    | some validate => run_validator validate results
  let published : Except OrchestrationError RLTrainingOutput :=
    match validated with
    | .error e => .error e
    | .ok results =>
      match publisher with
      | none => .ok results
      | some publish =>
        run_publisher publish manager results named_model_ids child_workflow_id
          recurring_period
  (published, events)

/-- Embeds `query_and_train` (lines 118-220).  External identity
allocation is supplied as arguments: `child_workflow_id` stands for
`get_workflow_id()` and `fresh_entity_ids` for
`get_new_named_entity_ids(manager.serving_module_names())`, used only
when `named_model_ids` is `None`.  Control flow from the source: unwrap
`saved_setup_data` (blob or bytes), resolve the data inputs
(lines 158-168), enforce mutual exclusivity (lines 170-171), query
train/eval datasets only on the normalization-data path (lines 173-189,
eval only when `should_generate_eval_dataset`), then train, validate
and publish.  The second component is the trace of collaborator calls. -/
def query_and_train (manager : ModelManager) (input_table_spec : TableSpec)
    (child_workflow_id : Nat) (fresh_entity_ids : ModuleNameToEntityId)
    (setup_data : Option (List (String × List Nat)))
    (saved_setup_data : Option (List (String × BlobOrBytes)))
    (normalization_data_map : Option Nat)
    (validator : Option (RLTrainingOutput → Nat))
    (publisher : Option (ModelManager → RLTrainingOutput → ModuleNameToEntityId →
      Nat → Option Nat → Nat))
    (named_model_ids : Option ModuleNameToEntityId)
    (recurring_period : Option Nat) :
    Except OrchestrationError RLTrainingOutput × List Event :=
  let named_model_ids :=
    match named_model_ids with
    | none => fresh_entity_ids
    | some ids => ids
  let saved_setup_data :=
    saved_setup_data.map (List.map fun kv => (kv.1, maybe_get_bytes kv.2))
  let resolved :=
    resolve_setup_data manager input_table_spec setup_data saved_setup_data
      normalization_data_map
  let setup_data := resolved.setup_data
  let normalization_data_map := resolved.normalization_data_map
  let events := resolved.events
  if (if setup_data.isSome then 1 else 0) +
      (if normalization_data_map.isSome then 1 else 0) ≠ 1 then
    (.error .mutualExclusivity, events)
  else
    match normalization_data_map with
    | some _ =>
      let calc_cpe_in_training := manager.should_generate_eval_dataset
      match get_sample_range input_table_spec calc_cpe_in_training with
      | .error e => (.error (.configuration e), events)
      | .ok sample_range_output =>
        let train_dataset :=
          manager.query_data input_table_spec sample_range_output.train_sample_range
        let events := events ++ [.queryData sample_range_output.train_sample_range]
        if calc_cpe_in_training then
          let eval_dataset :=
            manager.query_data input_table_spec sample_range_output.eval_sample_range
          let events := events ++ [.queryData sample_range_output.eval_sample_range]
          train_and_finish manager setup_data normalization_data_map
            (some train_dataset) (some eval_dataset) named_model_ids
            child_workflow_id validator publisher recurring_period events
        else
          train_and_finish manager setup_data normalization_data_map
            (some train_dataset) none named_model_ids child_workflow_id
            validator publisher recurring_period events
    | none =>
      train_and_finish manager setup_data normalization_data_map none none
        named_model_ids child_workflow_id validator publisher recurring_period
        events

/-! ## Theorems -/

/-- C2 (counterexample).  The claim asserts that for all
`table_sample + eval_table_sample ≤ 100 + 1e-3` with cross-partition
evaluation requested the two returned ranges never overlap.  At
`table_sample = 100`, `eval_table_sample = 1/1000` the sum is exactly
`100 + 1e-3`, the call succeeds with train range `(0, 100)` and eval
range `(100 - 1/1000, 100)`, and the two ranges overlap on the open
interval `(100 - 1/1000, 100)`. -/
theorem C2_counterexample :
    (100 : ℚ) + 1 / 1000 ≤ 100 + 1 / 1000 ∧
    get_sample_range ⟨some 100, some (1 / 1000)⟩ true =
      .ok ⟨(0, 100), (100 - 1 / 1000, 100)⟩ ∧
    ranges_overlap (0, 100) (100 - 1 / 1000, 100) := by
  refine ⟨le_refl _, ?_, ?_⟩
  · simp [get_sample_range]
    norm_num
  · simp only [ranges_overlap]
    norm_num

/-- C2 (amended).  With cross-partition evaluation requested and
`table_sample + eval_table_sample ≤ 100 + 1e-3`, `get_sample_range`
returns train range `(0, table_sample)` and eval range
`(100 - eval_table_sample, 100)`; the two ranges do not overlap whenever
the sum is at most `100` (within the `1e-3` epsilon slack above `100`
they can overlap, by at most the slack, as the counterexample shows). -/
theorem C2_sample_ranges (ts ets : ℚ) (h : ts + ets ≤ 100 + 1 / 1000) :
    get_sample_range ⟨some ts, some ets⟩ true = .ok ⟨(0, ts), (100 - ets, 100)⟩ ∧
    (ts + ets ≤ 100 → ¬ ranges_overlap (0, ts) (100 - ets, 100)) := by
  constructor
  · have hg : ets + ts ≤ 100 + 1 / 1000 := by linarith
    simp [get_sample_range]
    linarith
  · intro h100
    simp only [ranges_overlap, not_lt]
    exact le_trans (min_le_left _ _) (le_trans (by linarith) (le_max_right _ _))

/-- C2 (witness).  The spec's own scenario: `table_sample = 80`,
`eval_table_sample = 15`, cross-partition evaluation requested, gives
ranges `(0, 80)` and `(85, 100)`, which do not overlap. -/
theorem C2_sample_ranges_witness :
    get_sample_range ⟨some 80, some 15⟩ true = .ok ⟨(0, 80), (100 - 15, 100)⟩ ∧
    ¬ ranges_overlap (0, 80) (100 - 15, 100) := by
  have h := C2_sample_ranges 80 15 (by norm_num)
  exact ⟨h.1, h.2 (by norm_num)⟩

/-- C6 (confirmed).  With cross-partition evaluation requested, whenever
`table_sample` is unset, `eval_table_sample` is unset, or their sum
exceeds `100 + 1e-3` (that is, whenever no pair of set values satisfies
the bound), `get_sample_range` fails with a `ConfigurationError` whose
diagnostic carries the two current values, and returns no ranges. -/
theorem C6_invalid_sampling_config (input_table_spec : TableSpec)
    (h : ∀ ts ets, input_table_spec.table_sample = some ts →
      input_table_spec.eval_table_sample = some ets → ¬ ets + ts ≤ 100 + 1 / 1000) :
    get_sample_range input_table_spec true =
      .error ⟨input_table_spec.table_sample, input_table_spec.eval_table_sample⟩ := by
  obtain ⟨ts?, ets?⟩ := input_table_spec
  cases ts? with
  | none => simp [get_sample_range]
  | some ts =>
    cases ets? with
    | none => simp [get_sample_range]
    | some ets =>
      have hne := h ts ets rfl rfl
      simp [get_sample_range]
      linarith [not_le.mp hne]

/-- A concrete reward network used to instantiate the evaluator
theorems: initially in training mode. -/
def net0 : RewardNet :=
  { training := true, predicted_reward := fun _ => [0], net_id := 0 }

/-- A freshly initialized evaluator over `net0`. -/
def evaluator0 : RewardNetEvaluator := .init net0 (fun _ _ => 0)

/-- C3 (counterexample).  The claim asserts the mode flag is restored
even when the call fails.  Starting from training mode, an `evaluate`
call on a ranking batch with no slate reward fails the
`assert reward is not None` after `reward_net.eval()` but before
`reward_net.train(reward_net_prev_mode)`; there is no try/finally, so
the model is left in evaluation mode (flag `false`), not restored to
`true`. -/
theorem C3_counterexample :
    evaluator0.reward_net.training = true ∧
    (evaluator0.evaluate (.ranking none)).2 = some .missingSignal ∧
    (evaluator0.evaluate (.ranking none)).1.reward_net.training = false :=
  ⟨rfl, rfl, rfl⟩

/-- C3 (amended).  A successful `evaluate` call restores the model's
training/evaluation mode flag to its value from before the call; a
failing call (missing reward signal) leaves the model forced into
evaluation mode. -/
theorem C3_mode_restored (self : RewardNetEvaluator) (eval_tdp : EvalBatch) :
    ((self.evaluate eval_tdp).2 = none →
      (self.evaluate eval_tdp).1.reward_net.training = self.reward_net.training) ∧
    ((self.evaluate eval_tdp).2 ≠ none →
      (self.evaluate eval_tdp).1.reward_net.training = false) := by
  cases eval_tdp with
  | ranking slate_reward =>
    cases slate_reward <;> simp [RewardNetEvaluator.evaluate, extract_reward]
  | generic reward =>
    cases reward <;> simp [RewardNetEvaluator.evaluate, extract_reward]

/-- C3 (witness).  A successful call on a generic batch carrying a
reward leaves the mode flag as it found it. -/
theorem C3_mode_restored_witness :
    (evaluator0.evaluate (.generic (some [1]))).1.reward_net.training =
      evaluator0.reward_net.training :=
  (C3_mode_restored evaluator0 (.generic (some [1]))).1 rfl

/-- An evaluation batch carries a reward signal when its reward field is
set: the slate-level field for ranking-style batches, the scalar/episode
field otherwise. -/
def has_reward_signal : EvalBatch → Prop
  | .ranking slate_reward => slate_reward ≠ none
  | .generic reward => reward ≠ none

instance (b : EvalBatch) : Decidable (has_reward_signal b) := by
  cases b <;> (unfold has_reward_signal; infer_instance)

/-- C9 (confirmed).  `evaluate` fails with the missing-signal error
exactly when the batch carries no reward signal, and on success the
ground-truth reward recorded in the accumulator is the slate-level
field for a ranking-style batch and the scalar/episode field
otherwise. -/
theorem C9_reward_signal_extraction (self : RewardNetEvaluator) (eval_tdp : EvalBatch) :
    ((self.evaluate eval_tdp).2 = some .missingSignal ↔ ¬ has_reward_signal eval_tdp) ∧
    (∀ r, eval_tdp = .ranking (some r) →
      (self.evaluate eval_tdp).1.rewards = self.rewards ++ [r]) ∧
    (∀ r, eval_tdp = .generic (some r) →
      (self.evaluate eval_tdp).1.rewards = self.rewards ++ [r]) := by
  cases eval_tdp with
  | ranking slate_reward =>
    cases slate_reward <;>
      simp [RewardNetEvaluator.evaluate, extract_reward, has_reward_signal]
  | generic reward =>
    cases reward <;>
      simp [RewardNetEvaluator.evaluate, extract_reward, has_reward_signal]

/-- C9 (witness).  A ranking batch with no slate reward fails with the
missing-signal error; a ranking batch carrying slate reward `[2]`
records `[2]` as the ground truth. -/
theorem C9_reward_signal_extraction_witness :
    (evaluator0.evaluate (.ranking none)).2 = some .missingSignal ∧
    (evaluator0.evaluate (.ranking (some [2]))).1.rewards =
      evaluator0.rewards ++ [[2]] := by
  constructor
  · exact (C9_reward_signal_extraction evaluator0 (.ranking none)).1.mpr
      (by simp [has_reward_signal])
  · exact (C9_reward_signal_extraction evaluator0 (.ranking (some [2]))).2.1 [2] rfl

/-- C5 (counterexample).  The claim asserts that a call with zero
accumulated batches fails with an EmptyAccumulatorError at the mean
computation rather than silently producing NaN.  On the freshly
initialized (empty) evaluator, `np.mean` of the empty loss list silently
produces NaN (no exception), and the call then fails at
`torch.cat(self.rewards)` with torch's empty-list `RuntimeError` — not
at the mean computation. -/
theorem C5_counterexample :
    np_mean evaluator0.loss = none ∧
    evaluator0.evaluate_post_training = .error .catEmptyList := by
  constructor
  · rfl
  · rfl

/-- C5 (amended).  After every successful `evaluate_post_training` call
the three accumulator sequences are empty; a call with zero accumulated
batches does fail, but the mean computation silently produces NaN and
the failure is torch's empty-list error at the reward concatenation, not
an EmptyAccumulatorError at the mean. -/
theorem C5_drain_semantics (self : RewardNetEvaluator) (r : EvalRes)
    (next : RewardNetEvaluator) :
    (self.evaluate_post_training = .ok (r, next) →
      next.loss = [] ∧ next.rewards = [] ∧ next.pred_rewards = []) ∧
    (self.loss = [] → self.rewards = [] →
      np_mean self.loss = none ∧
      self.evaluate_post_training = .error .catEmptyList) := by
  constructor
  · intro h
    unfold RewardNetEvaluator.evaluate_post_training at h
    cases hcr : torch_cat self.rewards with
    | error e => rw [hcr] at h; simp [Bind.bind, Except.bind] at h
    | ok cr =>
      rw [hcr] at h
      cases hcp : torch_cat self.pred_rewards with
      | error e => rw [hcp] at h; simp [Bind.bind, Except.bind] at h
      | ok cp =>
        rw [hcp] at h
        simp only [Bind.bind, Except.bind, Pure.pure, Except.pure,
          Except.ok.injEq, Prod.mk.injEq] at h
        obtain ⟨-, hnext⟩ := h
        subst hnext
        cases hnp : np_mean self.loss with
        | none => simp [hnp]
        | some m =>
          by_cases hm : m < self.best_model_loss <;> simp [hnp, hm]
  · intro hl hr
    refine ⟨by simp [np_mean, hl], ?_⟩
    unfold RewardNetEvaluator.evaluate_post_training
    rw [hr]
    simp [torch_cat, Bind.bind, Except.bind]

/-- C4 (theorem).  Across every successful `evaluate_post_training`
call, `best_model_loss` does not increase, and the best-model slot is
replaced — with a snapshot of the current model (value semantics model
the `copy.deepcopy` independence) — exactly when the new mean loss is
strictly below the prior `best_model_loss`; a NaN mean (empty loss list)
compares false and updates nothing.  Non-increase over whole sequences
of calls follows by chaining this per-call bound, starting at the
initial sentinel `1e9` of `RewardNetEvaluator.init`. -/
theorem C4_best_model_update (self : RewardNetEvaluator) (r : EvalRes)
    (next : RewardNetEvaluator)
    (h : self.evaluate_post_training = .ok (r, next)) :
    next.best_model_loss ≤ self.best_model_loss ∧
    (∀ m, r.loss = some m →
      (m < self.best_model_loss →
        next.best_model_loss = m ∧ next.best_model = some self.reward_net) ∧
      (¬ m < self.best_model_loss →
        next.best_model_loss = self.best_model_loss ∧
        next.best_model = self.best_model)) ∧
    (r.loss = none →
      next.best_model_loss = self.best_model_loss ∧
      next.best_model = self.best_model) := by
  unfold RewardNetEvaluator.evaluate_post_training at h
  cases hcr : torch_cat self.rewards with
  | error e => rw [hcr] at h; simp [Bind.bind, Except.bind] at h
  | ok cr =>
    rw [hcr] at h
    cases hcp : torch_cat self.pred_rewards with
    | error e => rw [hcp] at h; simp [Bind.bind, Except.bind] at h
    | ok cp =>
      rw [hcp] at h
      simp only [Bind.bind, Except.bind, Pure.pure, Except.pure,
        Except.ok.injEq, Prod.mk.injEq] at h
      obtain ⟨hres, hnext⟩ := h
      subst hnext
      cases hnp : np_mean self.loss with
      | none =>
        refine ⟨by simp [hnp], ?_, by simp [hnp]⟩
        intro m hm
        rw [← hres] at hm
        simp [hnp] at hm
      | some m₀ =>
        by_cases hm₀ : m₀ < self.best_model_loss
        · refine ⟨by simp [hnp, hm₀]; exact le_of_lt hm₀, ?_, ?_⟩
          · intro m hm
            rw [← hres] at hm
            simp only [hnp] at hm
            obtain rfl : m₀ = m := Option.some.inj hm
            exact ⟨fun _ => by simp [hnp, hm₀], fun hcon => absurd hm₀ hcon⟩
          · intro hnone
            rw [← hres] at hnone
            simp [hnp] at hnone
        · refine ⟨by simp [hnp, hm₀], ?_, ?_⟩
          · intro m hm
            rw [← hres] at hm
            simp only [hnp] at hm
            obtain rfl : m₀ = m := Option.some.inj hm
            exact ⟨fun hcon => absurd hcon hm₀, fun _ => by simp [hnp, hm₀]⟩
          · intro hnone
            rw [← hres] at hnone
            simp [hnp] at hnone

/-- Evaluator state after one epoch of accumulated batches with losses
`[0.4, 0.6]` (the spec's scenario), ground-truth rewards `[[1]]` and
predicted rewards `[[2]]`, with the sentinel best loss still in place. -/
def evaluator4a : RewardNetEvaluator :=
  { reward_net := net0
    loss_fn := fun _ _ => 0
    loss := [2 / 5, 3 / 5]
    rewards := [[1]]
    pred_rewards := [[2]]
    best_model := none
    best_model_loss := 1000000000 }

/-- The state `evaluate_post_training` produces from `evaluator4a`:
drained accumulators, best loss `1/2`, best model snapshotting `net0`. -/
def evaluator4a_next : RewardNetEvaluator :=
  { evaluator4a with
    loss := [], rewards := [], pred_rewards := []
    best_model_loss := 1 / 2, best_model := some net0 }

/-- Helper: shape of a successful aggregation that strictly improves on
the best loss so far. -/
theorem evaluate_post_training_improve (self : RewardNetEvaluator) (m : ℚ)
    (hm : np_mean self.loss = some m) (hcr : self.rewards ≠ [])
    (hcp : self.pred_rewards ≠ []) (himp : m < self.best_model_loss) :
    self.evaluate_post_training =
      .ok (⟨some m, self.rewards.flatten, self.pred_rewards.flatten⟩,
        { self with
          loss := [], rewards := [], pred_rewards := []
          best_model_loss := m, best_model := some self.reward_net }) := by
  simp only [RewardNetEvaluator.evaluate_post_training, torch_cat, hm,
    if_neg hcr, if_neg hcp, Bind.bind, Except.bind, Pure.pure, Except.pure,
    if_pos himp]

/-- Helper: shape of a successful aggregation that does not improve on
the best loss so far. -/
theorem evaluate_post_training_no_improve (self : RewardNetEvaluator) (m : ℚ)
    (hm : np_mean self.loss = some m) (hcr : self.rewards ≠ [])
    (hcp : self.pred_rewards ≠ []) (himp : ¬ m < self.best_model_loss) :
    self.evaluate_post_training =
      .ok (⟨some m, self.rewards.flatten, self.pred_rewards.flatten⟩,
        { self with loss := [], rewards := [], pred_rewards := [] }) := by
  simp only [RewardNetEvaluator.evaluate_post_training, torch_cat, hm,
    if_neg hcr, if_neg hcp, Bind.bind, Except.bind, Pure.pure, Except.pure,
    if_neg himp]

/-- Computation: the epoch with losses `[0.4, 0.6]` aggregates to mean
loss `0.5` and snapshots the model, since `0.5 < 1e9`. -/
theorem evaluator4a_post :
    evaluator4a.evaluate_post_training =
      .ok (⟨some (1 / 2), [1], [2]⟩, evaluator4a_next) := by
  have hm : np_mean evaluator4a.loss = some (1 / 2) := by
    have h : ([2 / 5, 3 / 5] : List ℚ) ≠ [] := by simp
    simp only [evaluator4a, np_mean, if_neg h]
    norm_num
  have h := evaluate_post_training_improve evaluator4a (1 / 2) hm
    (by simp [evaluator4a]) (by simp [evaluator4a]) (by norm_num [evaluator4a])
  exact h

/-- Evaluator state one `evaluate` batch after the first aggregation:
a second epoch with a single loss `0.9`. -/
def evaluator4b : RewardNetEvaluator :=
  { evaluator4a_next with
    loss := [9 / 10], rewards := [[3]], pred_rewards := [[4]] }

/-- Computation: the second epoch aggregates to mean loss `0.9`, which
does not improve on `0.5`, so best model and best loss are unchanged. -/
theorem evaluator4b_post :
    evaluator4b.evaluate_post_training =
      .ok (⟨some (9 / 10), [3], [4]⟩, evaluator4a_next) := by
  have hm : np_mean evaluator4b.loss = some (9 / 10) := by
    have h : ([9 / 10] : List ℚ) ≠ [] := by simp
    simp only [evaluator4b, np_mean, if_neg h]
    norm_num
  have h := evaluate_post_training_no_improve evaluator4b (9 / 10) hm
    (by simp [evaluator4b]) (by simp [evaluator4b])
    (by norm_num [evaluator4b, evaluator4a_next])
  exact h

/-- C4 (witness).  The spec scenario: epoch `[0.4, 0.6]` sets
`best_model_loss = 1/2` and snapshots the current model; the following
epoch `[0.9]` leaves both unchanged. -/
theorem C4_best_model_update_witness :
    (evaluator4a_next.best_model_loss = 1 / 2 ∧
      evaluator4a_next.best_model = some evaluator4a.reward_net) ∧
    (evaluator4a_next.best_model_loss = evaluator4b.best_model_loss ∧
      evaluator4a_next.best_model = evaluator4b.best_model) ∧
    evaluator4a_next.best_model_loss ≤ evaluator4a.best_model_loss := by
  have h1 := C4_best_model_update evaluator4a _ _ evaluator4a_post
  have h2 := C4_best_model_update evaluator4b _ _ evaluator4b_post
  refine ⟨((h1.2.1 (1 / 2) rfl).1 (by norm_num [evaluator4a])), ?_, h1.1⟩
  exact (h2.2.1 (9 / 10) rfl).2 (by norm_num [evaluator4b, evaluator4a_next])

/-- C5 (witness).  Applying the drain/failure theorem: the successful
scenario call drains all three accumulators, and the freshly initialized
(empty) evaluator's call produces NaN at the mean and fails at the
concatenation. -/
theorem C5_drain_semantics_witness :
    (evaluator4a_next.loss = [] ∧ evaluator4a_next.rewards = [] ∧
      evaluator4a_next.pred_rewards = []) ∧
    (np_mean evaluator0.loss = none ∧
      evaluator0.evaluate_post_training = .error .catEmptyList) := by
  constructor
  · exact (C5_drain_semantics evaluator4a ⟨some (1 / 2), [1], [2]⟩
      evaluator4a_next).1 evaluator4a_post
  · exact (C5_drain_semantics evaluator0 ⟨none, [], []⟩ evaluator0).2 rfl rfl

/-- C6 (witness).  With `table_sample = 60`, `eval_table_sample = 60`
(sum `120 > 100 + 1e-3`) and cross-partition evaluation requested, the
call fails with the `ConfigurationError` naming both values. -/
theorem C6_invalid_sampling_config_witness :
    get_sample_range ⟨some 60, some 60⟩ true = .error ⟨some 60, some 60⟩ := by
  refine C6_invalid_sampling_config ⟨some 60, some 60⟩ ?_
  intro ts ets hts hets
  simp only [Option.some.injEq] at hts hets
  subst hts; subst hets
  norm_num

/-- A concrete model manager without a data module, used to instantiate
the orchestrator theorems. -/
def manager0 : ModelManager :=
  { get_data_module := fun _ _ => none
    prepare_data := fun data_module => [("setup", [data_module])]
    should_generate_eval_dataset := true
    query_data := fun _ _ => 7
    train_workflow := fun _ _ _ _ _ _ => ⟨42, none, none⟩ }

/-- C7 (confirmed).  Running the validation stage on an output whose
`validation_result` is already set fails on the guarding assert, and
likewise the publishing stage on an output whose `publishing_result` is
already set; in either case the stage returns an error and produces no
updated record, so the already-set field is never overwritten. -/
theorem C7_stage_fields_write_once (validate : RLTrainingOutput → Nat)
    (publish : ModelManager → RLTrainingOutput → ModuleNameToEntityId → Nat →
      Option Nat → Nat)
    (model_chooser : ModelManager) (training_output : RLTrainingOutput)
    (recurring_workflow_ids : ModuleNameToEntityId) (child_workflow_id : Nat)
    (recurring_period : Option Nat) :
    (training_output.validation_result ≠ none →
      run_validator validate training_output =
        .error (.invariantViolation "validation_result")) ∧
    (training_output.publishing_result ≠ none →
      run_publisher publish model_chooser training_output
          recurring_workflow_ids child_workflow_id recurring_period =
        .error (.invariantViolation "publishing_result")) := by
  constructor
  · intro h
    simp [run_validator, h]
  · intro h
    simp [run_publisher, h]

/-- C7 (witness).  On a record with both stage fields already set, the
validator stage and the publisher stage each fail with the
invariant-violation error for their own field. -/
theorem C7_stage_fields_write_once_witness :
    run_validator (fun _ => 5) ⟨0, some 1, some 2⟩ =
      .error (.invariantViolation "validation_result") ∧
    run_publisher (fun _ _ _ _ _ => 6) manager0 ⟨0, some 1, some 2⟩ [] 0 none =
      .error (.invariantViolation "publishing_result") := by
  have h := C7_stage_fields_write_once (fun _ => 5) (fun _ _ _ _ _ => 6)
    manager0 ⟨0, some 1, some 2⟩ [] 0 none
  exact ⟨h.1 (by simp), h.2 (by simp)⟩

/-- C8 (confirmed).  On an output whose own stage field is unset, each
stage returns a new record in which only that field is newly populated
and every other field — set or not — equals the corresponding field of
the input; the input itself is a value the stage cannot mutate
(`dataclasses.replace` builds a new record).  Each stage's conjunct
assumes only its own field unset, so the publisher half covers the
pipeline-standard case of a record whose `validation_result` is already
set. -/
theorem C8_functional_stage_update (validate : RLTrainingOutput → Nat)
    (publish : ModelManager → RLTrainingOutput → ModuleNameToEntityId → Nat →
      Option Nat → Nat)
    (model_chooser : ModelManager) (training_output : RLTrainingOutput)
    (recurring_workflow_ids : ModuleNameToEntityId) (child_workflow_id : Nat)
    (recurring_period : Option Nat) :
    (training_output.validation_result = none →
      run_validator validate training_output =
        .ok { output := training_output.output
              validation_result := some (validate training_output)
              publishing_result := training_output.publishing_result }) ∧
    (training_output.publishing_result = none →
      run_publisher publish model_chooser training_output
          recurring_workflow_ids child_workflow_id recurring_period =
        .ok { output := training_output.output
              validation_result := training_output.validation_result
              publishing_result := some (publish model_chooser training_output
                recurring_workflow_ids child_workflow_id recurring_period) }) := by
  constructor
  · intro hv
    simp [run_validator, hv]
  · intro hp
    simp [run_publisher, hp]

/-- C8 (witness).  The validator stage on `⟨3, none, some 9⟩` populates
only `validation_result`, preserving the set `publishing_result`; the
publisher stage on `⟨3, some 5, none⟩` — the standard case of a record
the validator has already stamped — populates only `publishing_result`,
preserving the set `validation_result`. -/
theorem C8_functional_stage_update_witness :
    run_validator (fun _ => 5) ⟨3, none, some 9⟩ = .ok ⟨3, some 5, some 9⟩ ∧
    run_publisher (fun _ _ _ _ _ => 6) manager0 ⟨3, some 5, none⟩ [] 0 none =
      .ok ⟨3, some 5, some 6⟩ :=
  ⟨(C8_functional_stage_update (fun _ => 5) (fun _ _ _ _ _ => 6) manager0
      ⟨3, none, some 9⟩ [] 0 none).1 rfl,
    (C8_functional_stage_update (fun _ => 5) (fun _ _ _ _ _ => 6) manager0
      ⟨3, some 5, none⟩ [] 0 none).2 rfl⟩

/-- C1 (confirmed).  After the data-resolution block of
`query_and_train`, exactly one of {setup_data, normalization_data_map}
is non-null whenever training begins (every `train_workflow` call in the
trace receives exactly one of the two); and when zero or two are
non-null after resolution, the call fails with the mutual-exclusivity
`ValueError` before any `query_data` or `train_workflow` call is made. -/
theorem C1_mutual_exclusivity_gate (manager : ModelManager)
    (input_table_spec : TableSpec) (child_workflow_id : Nat)
    (fresh_entity_ids : ModuleNameToEntityId)
    (setup_data : Option (List (String × List Nat)))
    (saved_setup_data : Option (List (String × BlobOrBytes)))
    (normalization_data_map : Option Nat)
    (validator : Option (RLTrainingOutput → Nat))
    (publisher : Option (ModelManager → RLTrainingOutput → ModuleNameToEntityId →
      Nat → Option Nat → Nat))
    (named_model_ids : Option ModuleNameToEntityId) (recurring_period : Option Nat)
    (res : Except OrchestrationError RLTrainingOutput) (tr : List Event)
    (hres : res = (query_and_train manager input_table_spec child_workflow_id
      fresh_entity_ids setup_data saved_setup_data normalization_data_map
      validator publisher named_model_ids recurring_period).1)
    (htr : tr = (query_and_train manager input_table_spec child_workflow_id
      fresh_entity_ids setup_data saved_setup_data normalization_data_map
      validator publisher named_model_ids recurring_period).2) :
    (∀ sd nm tds eds, Event.trainWorkflow sd nm tds eds ∈ tr →
      (if sd.isSome then 1 else 0) + (if nm.isSome then 1 else 0) = 1) ∧
    ((if (resolve_setup_data manager input_table_spec setup_data
          (saved_setup_data.map (List.map fun kv => (kv.1, maybe_get_bytes kv.2)))
          normalization_data_map).setup_data.isSome then 1 else 0) +
        (if (resolve_setup_data manager input_table_spec setup_data
          (saved_setup_data.map (List.map fun kv => (kv.1, maybe_get_bytes kv.2)))
          normalization_data_map).normalization_data_map.isSome then 1 else 0) ≠ 1 →
      res = .error .mutualExclusivity ∧
      (∀ r, Event.queryData r ∉ tr) ∧
      (∀ sd nm tds eds, Event.trainWorkflow sd nm tds eds ∉ tr)) := by
  subst hres htr
  cases setup_data with
  | some sd =>
    cases normalization_data_map with
    | some nm₀ => simp [query_and_train, resolve_setup_data]
    | none =>
      simp [query_and_train, resolve_setup_data, train_and_finish]
      rintro s nm tds eds rfl rfl rfl rfl
      rfl
  | none =>
    cases hdm : manager.get_data_module input_table_spec
        (saved_setup_data.map (List.map fun kv => (kv.1, maybe_get_bytes kv.2))) with
    | some data_module =>
      simp [query_and_train, resolve_setup_data, hdm, train_and_finish]
      rintro s nm tds eds rfl rfl rfl rfl
      rfl
    | none =>
      cases normalization_data_map with
      | none => simp [query_and_train, resolve_setup_data, hdm]
      | some nm₀ =>
        cases hsr : get_sample_range input_table_spec
            manager.should_generate_eval_dataset with
        | error e =>
          simp [query_and_train, resolve_setup_data, hdm, hsr]
        | ok sample_range_output =>
          cases hcpe : manager.should_generate_eval_dataset with
          | true =>
            rw [hcpe] at hsr
            simp [query_and_train, resolve_setup_data, hdm, hcpe, hsr,
              train_and_finish]
            rintro s nm tds eds rfl rfl rfl rfl
            rfl
          | false =>
            rw [hcpe] at hsr
            simp [query_and_train, resolve_setup_data, hdm, hcpe, hsr,
              train_and_finish]
            rintro s nm tds eds rfl rfl rfl rfl
            rfl

/-- C1 (witness).  With no setup data, no normalization map and a
manager without a data module, resolution yields zero non-null inputs:
the call fails with the mutual-exclusivity error having made no
`query_data` and no `train_workflow` call. -/
theorem C1_mutual_exclusivity_gate_witness :
    (query_and_train manager0 ⟨some 80, some 15⟩ 0 [] none none none none none
      none none).1 = .error .mutualExclusivity ∧
    (∀ r, Event.queryData r ∉ (query_and_train manager0 ⟨some 80, some 15⟩ 0 []
      none none none none none none none).2) ∧
    (∀ sd nm tds eds, Event.trainWorkflow sd nm tds eds ∉
      (query_and_train manager0 ⟨some 80, some 15⟩ 0 [] none none none none none
        none none).2) := by
  have h := C1_mutual_exclusivity_gate manager0 ⟨some 80, some 15⟩ 0 [] none
    none none none none none none _ _ rfl rfl
  exact h.2 (by simp [resolve_setup_data, manager0])

/-- C10 (confirmed).  When the caller supplies `setup_data`, the
resolution block is skipped: the data module is never consulted
(no `get_data_module` and no `prepare_data` call in the trace) and any
training call receives the supplied `setup_data` unchanged; supplying a
normalization map as well trips the mutual-exclusivity gate instead of
the map being discarded, and no training call runs. -/
theorem C10_setup_data_short_circuit (manager : ModelManager)
    (input_table_spec : TableSpec) (child_workflow_id : Nat)
    (fresh_entity_ids : ModuleNameToEntityId) (sd : List (String × List Nat))
    (saved_setup_data : Option (List (String × BlobOrBytes)))
    (normalization_data_map : Option Nat)
    (validator : Option (RLTrainingOutput → Nat))
    (publisher : Option (ModelManager → RLTrainingOutput → ModuleNameToEntityId →
      Nat → Option Nat → Nat))
    (named_model_ids : Option ModuleNameToEntityId) (recurring_period : Option Nat)
    (res : Except OrchestrationError RLTrainingOutput) (tr : List Event)
    (hres : res = (query_and_train manager input_table_spec child_workflow_id
      fresh_entity_ids (some sd) saved_setup_data normalization_data_map
      validator publisher named_model_ids recurring_period).1)
    (htr : tr = (query_and_train manager input_table_spec child_workflow_id
      fresh_entity_ids (some sd) saved_setup_data normalization_data_map
      validator publisher named_model_ids recurring_period).2) :
    Event.getDataModule ∉ tr ∧
    Event.prepareData ∉ tr ∧
    (∀ s nm tds eds, Event.trainWorkflow s nm tds eds ∈ tr → s = some sd) ∧
    (normalization_data_map.isSome →
      res = .error .mutualExclusivity ∧
      ∀ s nm tds eds, Event.trainWorkflow s nm tds eds ∉ tr) := by
  subst hres htr
  cases normalization_data_map with
  | some nm₀ => simp [query_and_train, resolve_setup_data]
  | none =>
    simp [query_and_train, resolve_setup_data, train_and_finish]
    rintro s nm tds eds rfl rfl rfl rfl
    rfl

/-- C10 (witness).  Supplying both `setup_data` and a normalization map
trips the mutual-exclusivity error with no data-module consultation and
no training; supplying only `setup_data` hands it unchanged to
`train_workflow`. -/
theorem C10_setup_data_short_circuit_witness :
    Event.getDataModule ∉ (query_and_train manager0 ⟨some 80, some 15⟩ 0 []
      (some [("k", [1])]) none (some 5) none none none none).2 ∧
    (query_and_train manager0 ⟨some 80, some 15⟩ 0 [] (some [("k", [1])]) none
      (some 5) none none none none).1 = .error .mutualExclusivity ∧
    (query_and_train manager0 ⟨some 80, some 15⟩ 0 [] (some [("k", [1])]) none
      none none none none none).2 =
      [Event.trainWorkflow (some [("k", [1])]) none none none] := by
  have h := C10_setup_data_short_circuit manager0 ⟨some 80, some 15⟩ 0 []
    [("k", [1])] none (some 5) none none none none _ _ rfl rfl
  exact ⟨h.1, (h.2.2.2 rfl).1, rfl⟩

end Reagent
